import Mathlib

/- Verification of the discount pricing resolver and the custom user model of the
   python_django_team5 storefront.  Dates are modelled as integers (days), currency
   amounts as rationals, and the relational store as explicit lists of records. -/

/-! ## Currency amounts and rounding to the minor unit -/

/-- Rounding a rational currency amount to two decimal places (the currency's
minor-unit precision): scale by 100, round to the nearest integer, scale back. -/
def round2 (q : ℚ) : ℚ :=
  ((round (q * 100) : ℤ) : ℚ) / 100

/-- An amount is representable in whole cents, i.e. it is an integer multiple of
1/100.  Stored base prices are decimal currency amounts of this shape. -/
def isCents (q : ℚ) : Prop :=
  (q * 100).den = 1

instance : DecidablePred isCents := fun q =>
  inferInstanceAs (Decidable ((q * 100).den = 1))

/-! ## Data model (spec section 3) -/

/-- Modelled from the spec: the kind of a discount campaign, either a
percentage-off discount or a fixed amount-off discount. -/
inductive DiscountKind
  | percentage
  | fixed
  deriving DecidableEq, Repr

/-- A discount campaign record.  Fields `is_active`, `valid_from`, `valid_to` and
the `seller_products` many-to-many set are the ones queried by
src/discounts_app/views.py; `kind`, `magnitude` and the store-wide flag come from
the spec's data model (the class itself lives in discounts_app/models.py, outside
the provided sources). -/
structure ProductDiscount where
  id : Nat
  kind : DiscountKind
  magnitude : ℚ
  valid_from : Int
  valid_to : Int
  is_active : Bool
  store_wide : Bool
  seller_products : List Nat
  deriving DecidableEq, Repr

/-- A seller product listing: identifier, product reference, store reference,
base price (a decimal currency amount) and availability, per the spec's data
model. -/
structure SellerProduct where
  id : Nat
  product_id : Nat
  store_id : Nat
  base_price : ℚ
  quantity : Nat
  deriving DecidableEq, Repr

/-- A discount is "current" when `is_active` is true and today's date lies in the
inclusive window between `valid_from` and `valid_to`. -/
def isCurrent (d : ProductDiscount) (today : Int) : Bool :=
  d.is_active && decide (d.valid_from ≤ today) && decide (today ≤ d.valid_to)

/-! ## The active-discount query of the discounts list page

Embeds `DiscountsListView.get` of src/discounts_app/views.py: the queryset
filter `is_active=True, valid_from__lte=today, valid_to__gte=today` over the
discount table, modelled as a list filter. -/

/-- The queryset built by the discounts list page: all discounts that are active
and whose inclusive validity window contains today. -/
def DiscountsListView.get (db : List ProductDiscount) (today : Int) : List ProductDiscount :=
  db.filter fun d =>
    d.is_active && decide (d.valid_from ≤ today) && decide (d.valid_to ≥ today)

/-! ## The discount pricing resolver

The service function `get_discounted_prices_for_seller_products` lives in
discounts_app/services.py, which is not among the provided sources; only its
call sites are.  It is therefore modelled from the spec (sections 4.1 and 6). -/

/-- Modelled from the spec: the error kinds of the resolver (spec section 7). -/
inductive PricingError
  | InvalidDiscount
  | InvalidPrice
  deriving DecidableEq, Repr

/-- Modelled from the spec: one output record of the resolver, carrying the
product, its original base price, the computed effective price, and the discount
applied, if any (spec sections 4.1 and 6). -/
structure PricedProduct where
  product : SellerProduct
  original_price : ℚ
  effective_price : ℚ
  discount_applied : Option ProductDiscount
  deriving DecidableEq, Repr

/-- Modelled from the spec: a discount covers a product when it applies
store-wide or the product belongs to its associated seller-product set. -/
def appliesTo (d : ProductDiscount) (p : SellerProduct) : Bool :=
  d.store_wide || d.seller_products.contains p.id

/-- Modelled from the spec: a discount descriptor is invalid when its magnitude
is negative or it is a percentage exceeding 100 (spec section 7). -/
def invalidDiscount (d : ProductDiscount) : Bool :=
  decide (d.magnitude < 0) || (d.kind == DiscountKind.percentage && decide (100 < d.magnitude))

/-- Modelled from the spec: the raw discounted amount before rounding and
clamping: `base * (1 - percentage/100)` for a percentage discount,
`base - amount` for a fixed-amount discount. -/
def computedPrice (d : ProductDiscount) (base_price : ℚ) : ℚ :=
  match d.kind with
  | DiscountKind.percentage => base_price * (1 - d.magnitude / 100)
  | DiscountKind.fixed => base_price - d.magnitude

/-- Modelled from the spec: the discounted price of a covered product.  A
percentage discount is rounded to the minor unit and never negative; a
fixed-amount discount is `max 0 (base - amount)` (spec section 4.1). -/
def discountedPrice (d : ProductDiscount) (base_price : ℚ) : ℚ :=
  match d.kind with
  | DiscountKind.percentage => max 0 (round2 (base_price * (1 - d.magnitude / 100)))
  | DiscountKind.fixed => max 0 (base_price - d.magnitude)

/-- Modelled from the spec: lifts discount validation to the optional discount
argument; no discount supplied is trivially valid. -/
def optionDiscountInvalid : Option ProductDiscount → Bool
  | none => false
  | some d => invalidDiscount d

/-- Modelled from the spec: price one product under an optional discount.  If no
discount is supplied, or the product is not covered by its applicability set, the
effective price is the base price and no discount is recorded as applied. -/
def priceOne (default_discount : Option ProductDiscount) (p : SellerProduct) : PricedProduct :=
  match default_discount with
  | some d =>
    if appliesTo d p then
      { product := p, original_price := p.base_price,
        effective_price := discountedPrice d p.base_price, discount_applied := some d }
    else
      { product := p, original_price := p.base_price,
        effective_price := p.base_price, discount_applied := none }
  | none =>
    { product := p, original_price := p.base_price,
      effective_price := p.base_price, discount_applied := none }

/-- Modelled from the spec: the resolver entry point
`resolve_prices(products, discount)` alias `get_discounted_prices_for_seller_products`.
It fails with `InvalidDiscount` when the supplied discount has negative magnitude
or a percentage above 100, fails with `InvalidPrice` when some product has a
negative base price, and otherwise returns one priced record per input product
(spec sections 4.1, 6 and 7). -/
def get_discounted_prices_for_seller_products (products : List SellerProduct)
    (default_discount : Option ProductDiscount) : Except PricingError (List PricedProduct) :=
  if optionDiscountInvalid default_discount then
    Except.error PricingError.InvalidDiscount
  else if products.any (fun p => decide (p.base_price < 0)) then
    Except.error PricingError.InvalidPrice
  else
    Except.ok (products.map (priceOne default_discount))

/-- Modelled from the spec: the entry-point name used in spec section 6 for the
same transformation. -/
abbrev resolve_prices := get_discounted_prices_for_seller_products

/-! ## The discount detail page (src/discounts_app/views.py) -/

/-- The object lookup of `DiscountDetailView`: the detail view resolves its
discount by identifier over the full discount table, with no filtering on
`is_active` or the validity window. -/
def DiscountDetailView.get_object (db : List ProductDiscount) (pk : Nat) :
    Option ProductDiscount :=
  db.find? fun d => d.id == pk

/-- Embeds `DiscountDetailView.get_context_data`: fetch the discount, take its
associated seller products, and hand both to the resolver as `default_discount`. -/
def DiscountDetailView.get_context_data (db : List ProductDiscount)
    (product_table : List SellerProduct) (pk : Nat) :
    Option (Except PricingError (List PricedProduct)) :=
  (DiscountDetailView.get_object db pk).map fun discount =>
    get_discounted_prices_for_seller_products
      (product_table.filter fun p => discount.seller_products.contains p.id)
      (some discount)

/-! ## Statelessness harness for the resolver -/

/-- Modelled from the spec: the discount record store, an external collaborator
holding discount definitions and seller product listings (spec section 2). -/
structure DiscountStore where
  discounts : List ProductDiscount
  products : List SellerProduct
  deriving DecidableEq, Repr

/-- Modelled from the spec: the resolver viewed as a state transformer over the
record store.  It is purely a transformation and does not write to storage, so
the store component passes through untouched (spec sections 4.1 and 5). -/
def resolve_prices_with_store (store : DiscountStore) (products : List SellerProduct)
    (default_discount : Option ProductDiscount) :
    Except PricingError (List PricedProduct) × DiscountStore :=
  (get_discounted_prices_for_seller_products products default_discount, store)

/-! ## The custom user model (src/profiles_app/models.py) -/

/-- A row of the custom user model.  Fields follow `profiles_app.models.User`;
`pk` is `none` for an unsaved instance, `groups` is the many-to-many group
relation (by group name), `avatar` an optional stored file name. -/
structure User where
  pk : Option Nat
  email : String
  username : String
  first_name : String
  last_name : String
  phone : Option String
  password : String
  is_staff : Bool
  is_active : Bool
  is_superuser : Bool
  avatar : Option String
  city : String
  address : String
  groups : List String
  deriving DecidableEq, Repr

/-- A fresh unsaved `User` instance with the model's field defaults. -/
def blankUser : User :=
  { pk := none, email := "", username := "", first_name := "", last_name := "",
    phone := none, password := "", is_staff := false, is_active := true,
    is_superuser := false, avatar := none, city := "", address := "", groups := [] }

/-- The relational store behind the user model: saved user rows, the stored
avatar files, and the next primary key the database will assign. -/
structure Db where
  users : List User
  files : List String
  next_pk : Nat
  deriving DecidableEq, Repr

/-- Embeds `User.is_member`: `self.groups.filter(name=group_name)` is non-empty.
On an unsaved instance the group relation raises `ValueError`, which the method
catches and turns into `False`. -/
def User.is_member (u : User) (group_name : String) : Bool :=
  match u.pk with
  | none => false
  | some _ => u.groups.contains group_name

/-- Modelled from the spec of the framework collaborator: `Model.save` of the
base class inserts a new row (assigning the next primary key) when `pk` is
`none`, and otherwise updates the row with the same primary key in place. -/
def baseSave (db : Db) (u : User) : Db × User :=
  match u.pk with
  | some pk =>
    ({ db with users := db.users.map fun v => if v.pk == some pk then u else v }, u)
  | none =>
    let saved := { u with pk := some db.next_pk }
    ({ db with users := db.users ++ [saved], next_pk := db.next_pk + 1 }, saved)

/-- Embeds `User.save`: when updating an existing row whose stored avatar
differs from the new one, delete the old avatar file; then force `is_staff` to
true exactly when the user is a member of the group named Content-manager, and
delegate to the base save. -/
def User.save (db : Db) (u : User) : Db × User :=
  let db1 :=
    match u.pk with
    | some pk =>
      match db.users.find? (fun v => v.pk == some pk) with
      | some old_self =>
        match old_self.avatar with
        | some f => if u.avatar ≠ old_self.avatar then
            { db with files := db.files.erase f }
          else db
        | none => db
      | none => db
    | none => db
  let u1 :=
    if u.is_member "Content-manager" then { u with is_staff := true }
    else { u with is_staff := false }
  baseSave db1 u1

/-- Modelled from the framework collaborator `BaseUserManager.normalize_email`:
strip surrounding whitespace, split at the last at-sign, and lowercase the
domain part; an address with no at-sign is returned unchanged (the underlying
`rsplit` raises `ValueError` there, which the framework swallows). -/
def normalize_email (email : String) : String :=
  let stripped := ((email.toList.dropWhile Char.isWhitespace).reverse.dropWhile
      Char.isWhitespace).reverse
  if stripped.contains '@' then
    let rev := stripped.reverse
    let domainRev := rev.takeWhile (fun c => c ≠ '@')
    let nameRev := rev.dropWhile (fun c => c ≠ '@')
    String.mk ((nameRev.drop 1).reverse ++ '@' :: domainRev.reverse.map Char.toLower)
  else email

/-- Modelled from the framework collaborator: password hashing applied by
`set_password`; an abstract injective transformation of the raw password. -/
def make_password (raw : String) : String :=
  "hashed$" ++ raw

/-- Modelled from the framework collaborator `AbstractBaseUser.set_password`. -/
def set_password (u : User) (raw : String) : User :=
  { u with password := make_password raw }

/-- Embeds `UserManager.create_user`: reject a falsy (empty) email with a
`ValueError` before touching the store; otherwise build a fresh user with the
normalized email, set the password, save it and return the saved row. -/
def UserManager.create_user (db : Db) (email password : String) :
    Db × Except String User :=
  if email = "" then
    (db, Except.error "Email must be entering")
  else
    let u := { blankUser with email := normalize_email email }
    let u := set_password u password
    let saved := User.save db u
    (saved.1, Except.ok saved.2)

/-- Embeds `UserManager.create_superuser`: create a user from the normalized
email, then set `is_superuser` and `is_staff` to true and save again. -/
def UserManager.create_superuser (db : Db) (email password : String) :
    Db × Except String User :=
  match UserManager.create_user db (normalize_email email) password with
  | (db1, Except.error e) => (db1, Except.error e)
  | (db1, Except.ok u) =>
    let u1 := { u with is_superuser := true }
    let u2 := { u1 with is_staff := true }
    let saved := User.save db1 u2
    (saved.1, Except.ok saved.2)

/-! ## Helper lemmas about minor-unit rounding -/

lemma round_rat_mono {p q : ℚ} (h : p ≤ q) : round p ≤ round q := by
  rw [round_eq, round_eq]
  exact Int.floor_le_floor (by linarith)

lemma round2_nonneg {q : ℚ} (h : 0 ≤ q) : 0 ≤ round2 q := by
  unfold round2
  have h1 : round (0 : ℚ) ≤ round (q * 100) := round_rat_mono (by nlinarith)
  rw [round_zero] at h1
  have h2 : (0 : ℚ) ≤ ((round (q * 100) : ℤ) : ℚ) := by exact_mod_cast h1
  positivity

lemma round2_nonpos {q : ℚ} (h : q ≤ 0) : round2 q ≤ 0 := by
  unfold round2
  have h1 : round (q * 100) ≤ round (0 : ℚ) := round_rat_mono (by nlinarith)
  rw [round_zero] at h1
  have h2 : ((round (q * 100) : ℤ) : ℚ) ≤ 0 := by exact_mod_cast h1
  have h100 : (0 : ℚ) < 100 := by norm_num
  exact div_nonpos_of_nonpos_of_nonneg h2 (by norm_num)

lemma round2_cents {q : ℚ} (hc : isCents q) : round2 q = q := by
  unfold round2
  have h1 : ((q * 100).num : ℚ) = q * 100 := Rat.coe_int_num_of_den_eq_one hc
  have h2 : round (q * 100) = (q * 100).num := by
    conv_lhs => rw [← h1]
    exact round_intCast _
  rw [h2, h1]
  field_simp

lemma round2_le_of_le_cents {q B : ℚ} (h : q ≤ B) (hc : isCents B) : round2 q ≤ B := by
  unfold round2
  have h1 : ((B * 100).num : ℚ) = B * 100 := Rat.coe_int_num_of_den_eq_one hc
  have h2 : round (B * 100) = (B * 100).num := by
    conv_lhs => rw [← h1]
    exact round_intCast _
  have h3 : round (q * 100) ≤ round (B * 100) := round_rat_mono (by nlinarith)
  rw [h2] at h3
  have h4 : ((round (q * 100) : ℤ) : ℚ) ≤ B * 100 := by
    rw [← h1]
    exact_mod_cast h3
  linarith [h4]

/-! ## Claim C3: the discounts list query returns exactly the current discounts -/

/-- Claim C3: a discount appears in the active-discount query used for the
discounts list page exactly when it is in the table, `is_active` is true, and
today lies in the inclusive window between `valid_from` and `valid_to`; no
discount outside the window or inactive appears. -/
theorem discounts_list_returns_exactly_current (db : List ProductDiscount)
    (today : Int) (d : ProductDiscount) :
    d ∈ DiscountsListView.get db today ↔ d ∈ db ∧ isCurrent d today = true := by
  unfold DiscountsListView.get isCurrent
  simp [List.mem_filter, and_assoc, ge_iff_le]

/-! ## Helper lemmas about saving users -/

lemma baseSave_snd_is_staff (db : Db) (u : User) :
    (baseSave db u).2.is_staff = u.is_staff := by
  cases h : u.pk <;> simp [baseSave, h]

lemma baseSave_snd_is_superuser (db : Db) (u : User) :
    (baseSave db u).2.is_superuser = u.is_superuser := by
  cases h : u.pk <;> simp [baseSave, h]

lemma baseSave_snd_groups (db : Db) (u : User) :
    (baseSave db u).2.groups = u.groups := by
  cases h : u.pk <;> simp [baseSave, h]

lemma baseSave_snd_email (db : Db) (u : User) :
    (baseSave db u).2.email = u.email := by
  cases h : u.pk <;> simp [baseSave, h]

lemma baseSave_snd_password (db : Db) (u : User) :
    (baseSave db u).2.password = u.password := by
  cases h : u.pk <;> simp [baseSave, h]

lemma save_snd_is_staff (db : Db) (u : User) :
    (User.save db u).2.is_staff = u.is_member "Content-manager" := by
  cases h : u.is_member "Content-manager" <;>
    simp [User.save, h, baseSave_snd_is_staff]

lemma save_snd_is_superuser (db : Db) (u : User) :
    (User.save db u).2.is_superuser = u.is_superuser := by
  cases h : u.is_member "Content-manager" <;>
    simp [User.save, h, baseSave_snd_is_superuser]

lemma save_snd_groups (db : Db) (u : User) :
    (User.save db u).2.groups = u.groups := by
  cases h : u.is_member "Content-manager" <;>
    simp [User.save, h, baseSave_snd_groups]

lemma save_snd_email (db : Db) (u : User) :
    (User.save db u).2.email = u.email := by
  cases h : u.is_member "Content-manager" <;>
    simp [User.save, h, baseSave_snd_email]

lemma save_snd_password (db : Db) (u : User) :
    (User.save db u).2.password = u.password := by
  cases h : u.is_member "Content-manager" <;>
    simp [User.save, h, baseSave_snd_password]

lemma is_member_of_groups_nil {u : User} (h : u.groups = []) (g : String) :
    u.is_member g = false := by
  cases hp : u.pk <;> simp [User.is_member, hp, h]

lemma create_user_ok_cases {db db2 : Db} {email password : String} {u : User}
    (h : UserManager.create_user db email password = (db2, Except.ok u)) :
    email ≠ "" ∧
      u = (User.save db (set_password { blankUser with email := normalize_email email }
            password)).2 ∧
      db2 = (User.save db (set_password { blankUser with email := normalize_email email }
            password)).1 := by
  by_cases he : email = ""
  · rw [UserManager.create_user, if_pos he] at h
    exact absurd (congrArg Prod.snd h) (by simp)
  · rw [UserManager.create_user, if_neg he] at h
    simp only [Prod.mk.injEq, Except.ok.injEq] at h
    exact ⟨he, h.2.symm, h.1.symm⟩

/-! ## Claim C9: User.save forces is_staff, so a fresh superuser is not staff -/

/-- Claim C9: for every user who is not a member of a group named
Content-manager, `User.save` persists the row with `is_staff` false; hence the
user returned by `UserManager.create_superuser` ends with `is_superuser` true
but `is_staff` false despite `create_superuser` assigning `is_staff` true just
before its final save. -/
theorem save_strips_staff_and_superuser_not_staff :
    (∀ (db : Db) (u : User), u.is_member "Content-manager" = false →
        (User.save db u).2.is_staff = false) ∧
    (∀ (db db2 : Db) (email password : String) (u : User),
        UserManager.create_superuser db email password = (db2, Except.ok u) →
        u.is_superuser = true ∧ u.is_staff = false) := by
  constructor
  · intro db u h
    rw [save_snd_is_staff, h]
  · intro db db2 email password u h
    rw [UserManager.create_superuser] at h
    rcases h1 : UserManager.create_user db (normalize_email email) password with ⟨db1, r⟩
    rw [h1] at h
    cases r with
    | error e => simp at h
    | ok u0 =>
      simp only [Prod.mk.injEq, Except.ok.injEq] at h
      obtain ⟨hdb, hu⟩ := h
      have hg : u0.groups = [] := by
        obtain ⟨-, hu0, -⟩ := create_user_ok_cases h1
        rw [hu0, save_snd_groups]
        rfl
      subst hu
      constructor
      · rw [save_snd_is_superuser]
      · rw [save_snd_is_staff]
        exact is_member_of_groups_nil (by simpa using hg) _

/-- An initially empty user store whose next primary key is 1. -/
def exDb0 : Db := { users := [], files := [], next_pk := 1 }

/-- The row produced by creating a superuser with email a@b.c over `exDb0`. -/
def exSuperUser : User :=
  { pk := some 1, email := "a@b.c", username := "", first_name := "", last_name := "",
    phone := none, password := "hashed$pw", is_staff := false, is_active := true,
    is_superuser := true, avatar := none, city := "", address := "", groups := [] }

/-- The store after creating that superuser. -/
def exSuperDb : Db := { users := [exSuperUser], files := [], next_pk := 2 }

/-- Witness for claim C9 at concrete inputs. -/
theorem save_strips_staff_and_superuser_not_staff_witness :
    (User.save exDb0 blankUser).2.is_staff = false ∧
    (exSuperUser.is_superuser = true ∧ exSuperUser.is_staff = false) :=
  ⟨save_strips_staff_and_superuser_not_staff.1 exDb0 blankUser (by decide),
   save_strips_staff_and_superuser_not_staff.2 exDb0 exSuperDb "a@b.c" "pw" exSuperUser
     rfl⟩

/-! ## Claim C10: create_user rejects an empty email and saves otherwise -/

/-- Claim C10: `UserManager.create_user` raises `ValueError` on an empty email
and leaves the store untouched in that case; for every non-empty email it
returns a saved row whose email is the normalized input and whose password was
set from the given raw password. -/
theorem create_user_empty_email_rejected :
    (∀ (db : Db) (password : String),
        UserManager.create_user db "" password = (db, Except.error "Email must be entering")) ∧
    (∀ (db : Db) (email password : String), email ≠ "" →
        ∃ db2 u, UserManager.create_user db email password = (db2, Except.ok u) ∧
          u.email = normalize_email email ∧ u.password = make_password password ∧
          db2.users = db.users ++ [u]) := by
  constructor
  · intro db password
    rw [UserManager.create_user, if_pos rfl]
  · intro db email password he
    have heq : UserManager.create_user db email password =
        ((User.save db (set_password { blankUser with email := normalize_email email }
            password)).1,
         Except.ok (User.save db (set_password { blankUser with email := normalize_email email }
            password)).2) := by
      rw [UserManager.create_user, if_neg he]
    refine ⟨_, _, heq, ?_, ?_, ?_⟩
    · rw [save_snd_email]
      rfl
    · rw [save_snd_password]
      rfl
    · rfl

/-- Witness for claim C10 at a concrete email and password. -/
theorem create_user_empty_email_rejected_witness :
    ∃ db2 u, UserManager.create_user exDb0 "User@Example.COM" "secret" = (db2, Except.ok u) ∧
      u.email = normalize_email "User@Example.COM" ∧ u.password = make_password "secret" ∧
      db2.users = exDb0.users ++ [u] :=
  create_user_empty_email_rejected.2 exDb0 "User@Example.COM" "secret" (by decide)

/-! ## Helper lemmas about the resolver -/

lemma invalidDiscount_false_of_percentage {d : ProductDiscount}
    (hkind : d.kind = DiscountKind.percentage)
    (h0 : 0 ≤ d.magnitude) (h100 : d.magnitude ≤ 100) : invalidDiscount d = false := by
  simp [invalidDiscount, hkind, not_lt]
  exact ⟨h0, h100⟩

lemma invalidDiscount_false_of_fixed {d : ProductDiscount}
    (hkind : d.kind = DiscountKind.fixed) (h0 : 0 ≤ d.magnitude) :
    invalidDiscount d = false := by
  simp [invalidDiscount, hkind, not_lt]
  exact h0

lemma resolver_ok_of_valid (products : List SellerProduct)
    (default_discount : Option ProductDiscount)
    (hv : optionDiscountInvalid default_discount = false)
    (hB : ∀ p ∈ products, 0 ≤ p.base_price) :
    get_discounted_prices_for_seller_products products default_discount =
      Except.ok (products.map (priceOne default_discount)) := by
  have hneg : products.any (fun p => decide (p.base_price < 0)) = false := by
    rw [Bool.eq_false_iff]
    intro hany
    rw [List.any_eq_true] at hany
    obtain ⟨p, hp, hdec⟩ := hany
    exact absurd (of_decide_eq_true hdec) (not_lt.mpr (hB p hp))
  simp [get_discounted_prices_for_seller_products, hv, hneg]

lemma invalidDiscount_iff (d : ProductDiscount) :
    invalidDiscount d = true ↔
      d.magnitude < 0 ∨ (d.kind = DiscountKind.percentage ∧ 100 < d.magnitude) := by
  cases hk : d.kind <;> simp [invalidDiscount, hk]

/-! ## Claim C1: percentage discounts -/

/-- Claim C1: for every seller product with a non-negative base price stored to
the cent and a percentage discount between 0 and 100, the resolver returns an
effective price equal to the base price times one minus the percentage over one
hundred, rounded to two decimals, and that price is at most the base price and
never negative. -/
theorem percentage_discount_rounds_and_bounds
    (products : List SellerProduct) (d : ProductDiscount)
    (hkind : d.kind = DiscountKind.percentage)
    (h0 : 0 ≤ d.magnitude) (h100 : d.magnitude ≤ 100)
    (hB : ∀ p ∈ products, 0 ≤ p.base_price ∧ isCents p.base_price) :
    ∃ out, get_discounted_prices_for_seller_products products (some d) = Except.ok out ∧
      ∀ e ∈ out, e.discount_applied = some d →
        e.effective_price = round2 (e.original_price * (1 - d.magnitude / 100)) ∧
        e.effective_price ≤ e.original_price ∧ 0 ≤ e.effective_price := by
  have hv : optionDiscountInvalid (some d) = false :=
    invalidDiscount_false_of_percentage hkind h0 h100
  refine ⟨_, resolver_ok_of_valid products (some d) hv (fun p hp => (hB p hp).1), ?_⟩
  intro e he hde
  obtain ⟨p, hp, rfl⟩ := List.mem_map.mp he
  by_cases ha : appliesTo d p = true
  · have hBp := hB p hp
    have hfac : 0 ≤ 1 - d.magnitude / 100 := by
      have hd1 : d.magnitude / 100 ≤ 1 := (div_le_one (by norm_num : (0:ℚ) < 100)).mpr h100
      linarith
    have hraw0 : 0 ≤ p.base_price * (1 - d.magnitude / 100) := mul_nonneg hBp.1 hfac
    have hrawle : p.base_price * (1 - d.magnitude / 100) ≤ p.base_price := by
      nlinarith [mul_nonneg hBp.1 (div_nonneg h0 (by norm_num : (0:ℚ) ≤ 100))]
    have h1 : 0 ≤ round2 (p.base_price * (1 - d.magnitude / 100)) := round2_nonneg hraw0
    have h2 : round2 (p.base_price * (1 - d.magnitude / 100)) ≤ p.base_price :=
      round2_le_of_le_cents hrawle hBp.2
    refine ⟨?_, ?_, ?_⟩ <;>
      simp [priceOne, ha, discountedPrice, hkind, max_eq_right h1, h1, h2]
  · simp [priceOne, ha] at hde

/-- A seller product with base price 100.00 (spec scenario 1). -/
def sp100 : SellerProduct :=
  { id := 1, product_id := 1, store_id := 1, base_price := 100, quantity := 5 }

/-- A store-wide 20 percent discount (spec scenario 1). -/
def d20 : ProductDiscount :=
  { id := 1, kind := DiscountKind.percentage, magnitude := 20, valid_from := 0,
    valid_to := 10, is_active := true, store_wide := true, seller_products := [] }

/-- Witness for claim C1: scenario 1, base price 100.00 with a 20 percent
discount. -/
theorem percentage_discount_rounds_and_bounds_witness :
    ∃ out, get_discounted_prices_for_seller_products [sp100] (some d20) = Except.ok out ∧
      ∀ e ∈ out, e.discount_applied = some d20 →
        e.effective_price = round2 (e.original_price * (1 - d20.magnitude / 100)) ∧
        e.effective_price ≤ e.original_price ∧ 0 ≤ e.effective_price :=
  percentage_discount_rounds_and_bounds [sp100] d20 rfl (by norm_num [d20])
    (by norm_num [d20])
    (by
      intro p hp
      simp only [List.mem_singleton] at hp
      subst hp
      exact ⟨by norm_num [sp100], by simp only [sp100, isCents]; norm_num⟩)

/-! ## Claim C2: fixed-amount discounts -/

/-- Claim C2: for every seller product with base price B and a fixed-amount
discount a with a at least 0, the resolver returns an effective price equal to
`max 0 (B - a)`; in particular a fixed discount larger than the base price
yields an effective price of exactly 0. -/
theorem fixed_discount_clamped_subtraction
    (products : List SellerProduct) (d : ProductDiscount)
    (hkind : d.kind = DiscountKind.fixed) (h0 : 0 ≤ d.magnitude)
    (hB : ∀ p ∈ products, 0 ≤ p.base_price) :
    ∃ out, get_discounted_prices_for_seller_products products (some d) = Except.ok out ∧
      ∀ e ∈ out, e.discount_applied = some d →
        e.effective_price = max 0 (e.original_price - d.magnitude) ∧
        (e.original_price < d.magnitude → e.effective_price = 0) := by
  have hv : optionDiscountInvalid (some d) = false :=
    invalidDiscount_false_of_fixed hkind h0
  refine ⟨_, resolver_ok_of_valid products (some d) hv hB, ?_⟩
  intro e he hde
  obtain ⟨p, hp, rfl⟩ := List.mem_map.mp he
  by_cases ha : appliesTo d p = true
  · constructor
    · simp [priceOne, ha, discountedPrice, hkind]
    · intro hlt
      simp only [priceOne, ha, if_true] at hlt ⊢
      have hle : p.base_price - d.magnitude ≤ 0 := by linarith
      simp [discountedPrice, hkind, max_eq_left hle]
  · simp [priceOne, ha] at hde

/-- A seller product with base price 50.00 (spec scenario 2). -/
def sp50 : SellerProduct :=
  { id := 2, product_id := 2, store_id := 1, base_price := 50, quantity := 1 }

/-- A store-wide fixed discount of 60.00 (spec scenario 2). -/
def d60 : ProductDiscount :=
  { id := 2, kind := DiscountKind.fixed, magnitude := 60, valid_from := 0,
    valid_to := 10, is_active := true, store_wide := true, seller_products := [] }

/-- Witness for claim C2: scenario 2, base price 50.00 with a fixed 60.00
discount, which clamps to 0. -/
theorem fixed_discount_clamped_subtraction_witness :
    ∃ out, get_discounted_prices_for_seller_products [sp50] (some d60) = Except.ok out ∧
      ∀ e ∈ out, e.discount_applied = some d60 →
        e.effective_price = max 0 (e.original_price - d60.magnitude) ∧
        (e.original_price < d60.magnitude → e.effective_price = 0) :=
  fixed_discount_clamped_subtraction [sp50] d60 rfl (by norm_num [d60])
    (by
      intro p hp
      simp only [List.mem_singleton] at hp
      subst hp
      norm_num [sp50])

/-! ## Claim C4: products without an applicable discount keep their base price -/

/-- Claim C4: when no discount is supplied, every output record carries an
effective price equal to the base price; and when a (valid) discount is supplied
but a product is not in its applicability set, that product's record keeps the
base price and records no discount applied. -/
theorem unaffected_products_keep_base_price
    (products : List SellerProduct) (hB : ∀ p ∈ products, 0 ≤ p.base_price) :
    (∃ out, get_discounted_prices_for_seller_products products none = Except.ok out ∧
        ∀ e ∈ out, e.effective_price = e.original_price ∧ e.discount_applied = none) ∧
    (∀ d : ProductDiscount, invalidDiscount d = false →
        ∃ out, get_discounted_prices_for_seller_products products (some d) = Except.ok out ∧
          ∀ p ∈ products, appliesTo d p = false →
            ({ product := p, original_price := p.base_price, effective_price := p.base_price,
               discount_applied := none } : PricedProduct) ∈ out) := by
  constructor
  · refine ⟨_, resolver_ok_of_valid products none rfl hB, ?_⟩
    intro e he
    obtain ⟨p, hp, rfl⟩ := List.mem_map.mp he
    simp [priceOne]
  · intro d hv
    refine ⟨_, resolver_ok_of_valid products (some d) hv hB, ?_⟩
    intro p hp hna
    have hpe : priceOne (some d) p =
        { product := p, original_price := p.base_price, effective_price := p.base_price,
          discount_applied := none } := by
      simp [priceOne, hna]
    exact hpe ▸ List.mem_map_of_mem (priceOne (some d)) hp

/-- A seller product with base price 30.00 (spec scenario 3). -/
def sp30 : SellerProduct :=
  { id := 3, product_id := 3, store_id := 1, base_price := 30, quantity := 1 }

/-- A valid discount whose applicability set does not contain `sp30`. -/
def dOther : ProductDiscount :=
  { id := 7, kind := DiscountKind.percentage, magnitude := 20, valid_from := 0,
    valid_to := 10, is_active := true, store_wide := false, seller_products := [99] }

/-- Witness for claim C4: scenario 3, base price 30.00 with no discount, and the
same product under a discount that does not cover it. -/
theorem unaffected_products_keep_base_price_witness :
    (∃ out, get_discounted_prices_for_seller_products [sp30] none = Except.ok out ∧
        ∀ e ∈ out, e.effective_price = e.original_price ∧ e.discount_applied = none) ∧
    (∃ out, get_discounted_prices_for_seller_products [sp30] (some dOther) = Except.ok out ∧
        ∀ p ∈ [sp30], appliesTo dOther p = false →
          ({ product := p, original_price := p.base_price, effective_price := p.base_price,
             discount_applied := none } : PricedProduct) ∈ out) := by
  have hB : ∀ p ∈ [sp30], 0 ≤ p.base_price := by
    intro p hp
    simp only [List.mem_singleton] at hp
    subst hp
    norm_num [sp30]
  exact ⟨(unaffected_products_keep_base_price [sp30] hB).1,
    (unaffected_products_keep_base_price [sp30] hB).2 dOther
      (by norm_num [invalidDiscount, dOther])⟩

/-! ## Claim C5: error conditions of the resolver -/

/-- Claim C5: the resolver fails with `InvalidDiscount` exactly when the
supplied discount's magnitude is negative or its percentage exceeds 100; when
the discount is valid it fails with `InvalidPrice` exactly when some product's
base price is negative, and succeeds on all other inputs.  (When both error
conditions hold the discount check wins, so the `InvalidPrice` description is
stated under a valid discount.) -/
theorem resolver_error_conditions (products : List SellerProduct) (d : ProductDiscount) :
    (get_discounted_prices_for_seller_products products (some d) =
        Except.error PricingError.InvalidDiscount ↔
      d.magnitude < 0 ∨ (d.kind = DiscountKind.percentage ∧ 100 < d.magnitude)) ∧
    (0 ≤ d.magnitude → (d.kind = DiscountKind.percentage → d.magnitude ≤ 100) →
      ((get_discounted_prices_for_seller_products products (some d) =
          Except.error PricingError.InvalidPrice ↔ ∃ p ∈ products, p.base_price < 0) ∧
       ((∀ p ∈ products, 0 ≤ p.base_price) →
          ∃ out, get_discounted_prices_for_seller_products products (some d) =
            Except.ok out))) := by
  have hinv := invalidDiscount_iff d
  constructor
  · by_cases hv : invalidDiscount d = true
    · refine ⟨fun _ => hinv.mp hv, fun _ => ?_⟩
      simp [get_discounted_prices_for_seller_products, optionDiscountInvalid, hv]
    · have hv2 : invalidDiscount d = false := Bool.eq_false_iff.mpr hv
      refine ⟨fun hcontra => ?_, fun hor => absurd (hinv.mpr hor) hv⟩
      cases hneg : products.any (fun p => decide (p.base_price < 0)) <;>
        simp [get_discounted_prices_for_seller_products, optionDiscountInvalid, hv2,
          hneg] at hcontra
  · intro hm0 hm100
    have hv2 : invalidDiscount d = false := by
      rcases Bool.eq_false_or_eq_true (invalidDiscount d) with h | h
      · rcases hinv.mp h with hlt | ⟨hk, hgt⟩
        · linarith
        · linarith [hm100 hk]
      · exact h
    constructor
    · constructor
      · intro herr
        cases hneg : products.any (fun p => decide (p.base_price < 0)) with
        | false =>
          simp [get_discounted_prices_for_seller_products, optionDiscountInvalid, hv2,
            hneg] at herr
        | true =>
          rw [List.any_eq_true] at hneg
          obtain ⟨p, hp, hdec⟩ := hneg
          exact ⟨p, hp, of_decide_eq_true hdec⟩
      · intro hex
        obtain ⟨p, hp, hlt⟩ := hex
        have hneg : products.any (fun p => decide (p.base_price < 0)) = true := by
          rw [List.any_eq_true]
          exact ⟨p, hp, decide_eq_true hlt⟩
        simp [get_discounted_prices_for_seller_products, optionDiscountInvalid, hv2, hneg]
    · intro hB
      exact ⟨_, resolver_ok_of_valid products (some d)
        (by simpa [optionDiscountInvalid] using hv2) hB⟩

/-- A percentage discount of 150 percent (spec scenario 4). -/
def d150 : ProductDiscount :=
  { id := 4, kind := DiscountKind.percentage, magnitude := 150, valid_from := 0,
    valid_to := 10, is_active := true, store_wide := true, seller_products := [] }

/-- Witness for claim C5: scenario 4, a 150 percent discount fails with
`InvalidDiscount`, while a valid discount over a well-priced catalog succeeds. -/
theorem resolver_error_conditions_witness :
    get_discounted_prices_for_seller_products [sp100] (some d150) =
      Except.error PricingError.InvalidDiscount ∧
    ∃ out, get_discounted_prices_for_seller_products [sp100] (some d20) =
      Except.ok out :=
  ⟨(resolver_error_conditions [sp100] d150).1.mpr
      (Or.inr ⟨rfl, by norm_num [d150]⟩),
   ((resolver_error_conditions [sp100] d20).2 (by norm_num [d20])
      (fun _ => by norm_num [d20])).2
      (by
        intro p hp
        simp only [List.mem_singleton] at hp
        subst hp
        norm_num [sp100])⟩

/-! ## Claim C7: zero magnitude is the identity and negatives clamp to zero -/

/-- Claim C7: for either discount kind, a magnitude of exactly 0 leaves the
effective price equal to the base price, and a magnitude whose raw computed
price would be negative yields an effective price of exactly 0, never a
negative value. -/
theorem zero_magnitude_identity_and_clamp (d : ProductDiscount) (B : ℚ)
    (hB0 : 0 ≤ B) (hBc : isCents B) :
    (d.magnitude = 0 → discountedPrice d B = B) ∧
    (computedPrice d B < 0 → discountedPrice d B = 0) := by
  constructor
  · intro hm
    cases hk : d.kind with
    | percentage =>
      simp only [discountedPrice, hk, hm]
      norm_num
      rw [round2_cents hBc]
      exact max_eq_right hB0
    | fixed =>
      simp only [discountedPrice, hk, hm]
      rw [sub_zero]
      exact max_eq_right hB0
  · intro hc
    cases hk : d.kind with
    | percentage =>
      simp only [computedPrice, hk] at hc
      simp only [discountedPrice, hk]
      exact max_eq_left (round2_nonpos hc.le)
    | fixed =>
      simp only [computedPrice, hk] at hc
      simp only [discountedPrice, hk]
      exact max_eq_left hc.le

/-- A store-wide fixed discount of magnitude 0. -/
def dZero : ProductDiscount :=
  { id := 5, kind := DiscountKind.fixed, magnitude := 0, valid_from := 0,
    valid_to := 10, is_active := true, store_wide := true, seller_products := [] }

/-- Witness for claim C7 at a fixed discount of magnitude 0 over base price 30. -/
theorem zero_magnitude_identity_and_clamp_witness :
    (dZero.magnitude = 0 → discountedPrice dZero 30 = 30) ∧
    (computedPrice dZero 30 < 0 → discountedPrice dZero 30 = 0) :=
  zero_magnitude_identity_and_clamp dZero 30 (by norm_num)
    (by simp only [isCents]; norm_num)

/-! ## Claim C8: the resolver is deterministic and side-effect free -/

/-- Claim C8: the resolver, viewed as a transformation over the record store,
never changes the store, and its output depends only on the product collection
and the discount descriptor, not on the store state: two invocations with
identical inputs yield identical outputs. -/
theorem resolver_stateless_deterministic :
    ∀ (store store2 : DiscountStore) (products : List SellerProduct)
      (default_discount : Option ProductDiscount),
      (resolve_prices_with_store store products default_discount).2 = store ∧
      (resolve_prices_with_store store products default_discount).1 =
        (resolve_prices_with_store store2 products default_discount).1 :=
  fun _ _ _ _ => ⟨rfl, rfl⟩

/-! ## Claim C6: which callers pre-filter discounts before the resolver -/

/-- A discount that is not currently active (`is_active` is false). -/
def staleDiscount : ProductDiscount :=
  { id := 6, kind := DiscountKind.fixed, magnitude := 5, valid_from := 0,
    valid_to := 10, is_active := false, store_wide := false, seller_products := [7] }

/-- The seller product associated with `staleDiscount`. -/
def sp7 : SellerProduct :=
  { id := 7, product_id := 7, store_id := 1, base_price := 30, quantity := 1 }

/-- Counterexample to claim C6: the discount-detail page does not satisfy the
pre-filtering precondition.  With the discount table holding only
`staleDiscount`, which is not currently active on day 5 (its `is_active` flag is
false), the detail page still hands exactly that discount to the resolver as
`default_discount`. -/
theorem discount_detail_passes_noncurrent_discount :
    DiscountDetailView.get_context_data [staleDiscount] [sp7] 6 =
      some (get_discounted_prices_for_seller_products [sp7] (some staleDiscount)) ∧
    isCurrent staleDiscount 5 = false :=
  ⟨rfl, rfl⟩

/-- Claim C6 (amended): the discounts list page does filter to current
discounts, but the discount-detail page fetches its discount by identifier
alone, with no `is_active` or validity-window filter, and passes it to the
resolver regardless; the resolver itself performs no validity re-check — the
prices it returns are unchanged under any alteration of the discount's
`is_active`, `valid_from` and `valid_to` fields. -/
theorem discount_detail_fetch_and_resolver_ignore_validity
    (db : List ProductDiscount) (pk : Nat) (d : ProductDiscount)
    (h : DiscountDetailView.get_object db pk = some d) :
    (d ∈ db ∧ d.id = pk) ∧
    ∀ (products : List SellerProduct) (b : Bool) (f t : Int),
      Except.map (List.map fun e => (e.product, e.original_price, e.effective_price))
          (get_discounted_prices_for_seller_products products
            (some { d with is_active := b, valid_from := f, valid_to := t })) =
        Except.map (List.map fun e => (e.product, e.original_price, e.effective_price))
          (get_discounted_prices_for_seller_products products (some d)) := by
  constructor
  · refine ⟨List.mem_of_find?_eq_some h, ?_⟩
    have hpred := List.find?_some h
    simpa using hpred
  · intro products b f t
    have hinv : invalidDiscount { d with is_active := b, valid_from := f, valid_to := t } =
        invalidDiscount d := rfl
    unfold get_discounted_prices_for_seller_products
    simp only [optionDiscountInvalid, hinv]
    by_cases hv : invalidDiscount d = true
    · simp [hv]
    · have hv2 : invalidDiscount d = false := Bool.eq_false_iff.mpr hv
      simp only [hv2, Bool.false_eq_true, if_false]
      by_cases hneg : products.any (fun p => decide (p.base_price < 0)) = true
      · simp [hneg]
      · have hneg2 : products.any (fun p => decide (p.base_price < 0)) = false :=
          Bool.eq_false_iff.mpr hneg
        simp only [hneg2, Bool.false_eq_true, if_false, Except.map, List.map_map]
        congr 1
        apply List.map_congr_left
        intro p hp
        by_cases ha : appliesTo d p = true <;>
          simp [priceOne, ha,
            show appliesTo { d with is_active := b, valid_from := f, valid_to := t } p =
              appliesTo d p from rfl,
            show discountedPrice { d with is_active := b, valid_from := f, valid_to := t }
              p.base_price = discountedPrice d p.base_price from rfl]

/-- Witness for the amended claim C6 at the concrete stale discount: the detail
page fetch finds it by identifier, and flipping its validity fields does not
change any price the resolver returns. -/
theorem discount_detail_fetch_and_resolver_ignore_validity_witness :
    (staleDiscount ∈ [staleDiscount] ∧ staleDiscount.id = 6) ∧
    Except.map (List.map fun e => (e.product, e.original_price, e.effective_price))
        (get_discounted_prices_for_seller_products [sp7]
          (some { staleDiscount with is_active := true, valid_from := 1, valid_to := 2 })) =
      Except.map (List.map fun e => (e.product, e.original_price, e.effective_price))
        (get_discounted_prices_for_seller_products [sp7] (some staleDiscount)) :=
  ⟨(discount_detail_fetch_and_resolver_ignore_validity [staleDiscount] 6 staleDiscount rfl).1,
   (discount_detail_fetch_and_resolver_ignore_validity [staleDiscount] 6 staleDiscount rfl).2
     [sp7] true 1 2⟩
